import Mathlib

/-!
Shallow embedding of the voice-generation-tool synthesis pipeline.

JavaScript `number` values are modelled as `ℚ` (exact rational arithmetic in
place of IEEE doubles), 16-bit PCM samples as `Int`, buffers as `List Int` of
interleaved samples, and JS strings as Lean `String`s.  `Math.round` is
`⌊x + 1/2⌋` (round half toward positive infinity, as in JS), `Math.floor` is
`⌊·⌋`.  `Array.prototype.sort` with comparator `(a, b) => a.time - b.time` is
modelled as a stable insertion sort by the `time` key, which produces the same
(unique) stable ascending permutation.
-/

/-- JS `Math.round`: round half toward +∞. -/
def jsRound (q : ℚ) : Int := ⌊q + 1/2⌋

/-- Saturating clamp to the signed 16-bit range, as in
`Math.max(-32768, Math.min(32767, x))`. -/
def clamp16 (x : Int) : Int := max (-32768) (min 32767 x)

/-- Truncation toward zero, as JS `Math.trunc` / the rounding used by `%`. -/
def jsTrunc (q : ℚ) : Int := if 0 ≤ q then ⌊q⌋ else -⌊-q⌋

/-- JS `%` (truncated remainder).  The pipeline only applies it to
nonnegative operands, where it agrees with the mathematical remainder. -/
def jsMod (a b : ℚ) : ℚ := a - b * (jsTrunc (a / b) : ℚ)

/-- ASCII whitespace recognised by JS `\s` / `String.prototype.trim`
(the source strings contain no exotic Unicode spaces). -/
def isJsWs (c : Char) : Bool :=
  c = ' ' || c = '\t' || c = '\n' || c = '\r' || c = Char.ofNat 11 || c = Char.ofNat 12

/-- JS `String.prototype.trim`. -/
def jsTrim (s : String) : String :=
  String.mk (((s.toList.dropWhile isJsWs).reverse.dropWhile isJsWs).reverse)

/-- One step (processed right-to-left) of splitting on the regex `/\s+/`:
the accumulator is the token list so far plus a flag telling whether the
previously seen character (the one to the right) was whitespace. -/
def splitWsStep (c : Char) : List (List Char) × Bool → List (List Char) × Bool
  | (toks, prevWs) =>
    if isJsWs c then
      if prevWs then (toks, true) else ([] :: toks, true)
    else
      match toks with
      | [] => ([[c]], false)
      | t :: ts => ((c :: t) :: ts, false)

/-- JS `String.prototype.split(/\s+/)`: maximal whitespace runs separate the
tokens; a leading or trailing run contributes an empty token. -/
def jsSplitWs (s : String) : List String :=
  ((s.toList.foldr splitWsStep ([[]], false)).1).map String.mk

/-- Whether the first list is an initial segment of the second. -/
def strStartsWith [DecidableEq α] : List α → List α → Bool
  | [], _ => true
  | _ :: _, [] => false
  | n :: ns, h :: hs => n = h && strStartsWith ns hs

/-- Index of the first occurrence of `needle` in `hay`, if any. -/
def idxOfSub [DecidableEq α] (needle : List α) : List α → Option Nat
  | [] => if strStartsWith needle [] then some 0 else none
  | h :: hs =>
    if strStartsWith needle (h :: hs) then some 0
    else (idxOfSub needle hs).map (· + 1)

/-- JS `String.prototype.includes`. -/
def jsIncludes (hay needle : String) : Bool :=
  (idxOfSub needle.toList hay.toList).isSome

/-- JS `String.prototype.indexOf`: first index of the substring, or `-1`. -/
def jsIndexOf (hay needle : String) : Int :=
  match idxOfSub needle.toList hay.toList with
  | some n => (n : Int)
  | none => -1

/-- JS `String.prototype.toLowerCase` (ASCII). -/
def jsToLower (s : String) : String := String.mk (s.toList.map Char.toLower)

section StableSort

variable {α : Type} (key : α → ℚ)

/-- Insert `x` before the first element whose key is not smaller; together
with `sortByTime` this is a stable sort by `key`, the behaviour of JS
`Array.prototype.sort` with comparator `(a, b) => key a - key b`. -/
def insertByTime (x : α) : List α → List α
  | [] => [x]
  | y :: ys => if key y < key x then y :: insertByTime x ys else x :: y :: ys

/-- Stable insertion sort by `key` (ascending). -/
def sortByTime : List α → List α
  | [] => []
  | x :: xs => insertByTime key x (sortByTime xs)

end StableSort

/-! ## Emotion data model (src/interfaces/voice.interface.ts,
emotion-transition.interface.ts) -/

/-- `EmotionType` from voice.interface.ts. -/
inductive EmotionType where
  | happy | sad | angry | excited | calm | fearful | surprised | neutral
deriving DecidableEq

/-- `EmotionVariation` from voice.interface.ts. -/
structure EmotionVariation where
  subtype : String
  intensity : ℚ
  duration : Option ℚ
deriving DecidableEq

/-- `EmotionProfile` from voice.interface.ts. -/
structure EmotionProfile where
  type : EmotionType
  intensity : ℚ
  variations : List EmotionVariation
deriving DecidableEq

/-- `TransitionCurve` from emotion-transition.interface.ts. -/
inductive TransitionCurve where
  | linear | easeIn | easeOut | easeInOut | bezier
deriving DecidableEq

/-- `EmotionTrigger` from emotion-transition.interface.ts: `word?`, `time?`,
`position?`, `marker?`. -/
structure EmotionTrigger where
  word : Option String
  time : Option ℚ
  position : Option ℚ
  marker : Option String
deriving DecidableEq

/-- `EmotionTransition` from emotion-transition.interface.ts. -/
structure EmotionTransition where
  id : Option String
  fromEmotion : EmotionProfile
  toEmotion : EmotionProfile
  duration : ℚ
  curve : TransitionCurve
  triggers : EmotionTrigger
  controlPoints : Option (List (ℚ × ℚ))
deriving DecidableEq

/-- `EmotionKeyframe` from emotion-transition.interface.ts. -/
structure EmotionKeyframe where
  time : ℚ
  emotion : EmotionType
  intensity : ℚ
  transition : Option EmotionTransition
deriving DecidableEq

/-- `EmotionTimeline` from emotion-transition.interface.ts. -/
structure EmotionTimeline where
  keyframes : List EmotionKeyframe
  duration : ℚ
  defaultEmotion : EmotionProfile
deriving DecidableEq

/-- `TransitionConfig` from emotion-transition.interface.ts. -/
structure TransitionConfig where
  enableSmoothing : Bool
  minimumDuration : ℚ
  maximumDuration : ℚ
  naturalBreaks : Bool
  intensityThreshold : ℚ
deriving DecidableEq

/-- The `transitionData` payload of an `EmotionSegment`. -/
structure TransitionData where
  fromEmotion : EmotionProfile
  toEmotion : EmotionProfile
  progress : ℚ
deriving DecidableEq

/-- `EmotionSegment` from emotion-transition.interface.ts. -/
structure EmotionSegment where
  startTime : ℚ
  endTime : ℚ
  text : String
  emotion : EmotionProfile
  isTransition : Bool
  transitionData : Option TransitionData
deriving DecidableEq

/-- `EmotionTransitionResult` from emotion-transition.interface.ts. -/
structure EmotionTransitionResult where
  timeline : EmotionTimeline
  segments : List EmotionSegment
  totalDuration : ℚ
  transitionCount : Nat
deriving DecidableEq

/-! ## EmotionCurves (src/utils/emotion-curves.ts) -/

namespace EmotionCurves

/-- `EmotionCurves.linear`: clamps progress to `[0, 1]`. -/
def linear (progress : ℚ) : ℚ := max 0 (min 1 progress)

/-- `EmotionCurves.easeIn`: `progress²`. -/
def easeIn (progress : ℚ) : ℚ := progress * progress

/-- `EmotionCurves.easeOut`: `1 − (1 − progress)²`. -/
def easeOut (progress : ℚ) : ℚ := 1 - (1 - progress) ^ 2

/-- `EmotionCurves.easeInOut`: piecewise quadratic. -/
def easeInOut (progress : ℚ) : ℚ :=
  if progress < 1/2 then 2 * progress * progress
  else 1 - (-2 * progress + 2) ^ 2 / 2

/-- `EmotionCurves.bezier`: 1-D cubic Bézier evaluated directly at `t`,
across `(0, ·), cp1, cp2, (1, ·)` using only the y-coordinates; the default
control points are `[[0.25, 0.1], [0.75, 0.9]]`.  (Like the source, lists
with fewer than two control points are not meaningful; the embedding reads
missing entries as `(0, 0)`.) -/
def bezier (progress : ℚ) (controlPoints : Option (List (ℚ × ℚ))) : ℚ :=
  let cps := controlPoints.getD [(1/4, 1/10), (3/4, 9/10)]
  let cp1 := cps.getD 0 (0, 0)
  let cp2 := cps.getD 1 (0, 0)
  let t := progress
  let t2 := t * t
  let t3 := t2 * t
  let mt := 1 - t
  let mt2 := mt * mt
  let mt3 := mt2 * mt
  mt3 * 0 + 3 * mt2 * t * cp1.2 + 3 * mt * t2 * cp2.2 + t3 * 1

/-- The `calculate` function that `EmotionCurves.getCurveFunction` returns
for each `TransitionCurve`. -/
def curveCalculate (curve : TransitionCurve)
    (controlPoints : Option (List (ℚ × ℚ))) (progress : ℚ) : ℚ :=
  match curve with
  | .linear => linear progress
  | .easeIn => easeIn progress
  | .easeOut => easeOut progress
  | .easeInOut => easeInOut progress
  | .bezier => bezier progress controlPoints

/-- `EmotionCurves.interpolateEmotionIntensity`. -/
def interpolateEmotionIntensity (fromIntensity toIntensity progress : ℚ)
    (curve : TransitionCurve) (controlPoints : Option (List (ℚ × ℚ))) : ℚ :=
  let easedProgress := curveCalculate curve controlPoints progress
  fromIntensity + (toIntensity - fromIntensity) * easedProgress

end EmotionCurves

/-! ## EmotionTransitionEngine (src/core/emotion-transition-engine.ts) -/

namespace EmotionTransitionEngine

/-- The defaults installed by the engine's constructor. -/
def defaultConfig : TransitionConfig :=
  { enableSmoothing := true
    minimumDuration := 500
    maximumDuration := 3000
    naturalBreaks := true
    intensityThreshold := 1/10 }

/-- `calculateTriggerTime`: trigger precedence is time, then word, then
position, then marker; `-1` when no trigger resolves.  JS truthiness makes an
empty `word` or `marker` string fall through. -/
def calculateTriggerTime (text : String) (transition : EmotionTransition) : ℚ :=
  let trigger := transition.triggers
  match trigger.time with
  | some t => t
  | none =>
    let wordResult : Option ℚ :=
      match trigger.word with
      | some w =>
        if w ≠ "" then
          let wordIndex := jsIndexOf (jsToLower text) (jsToLower w)
          if 0 ≤ wordIndex then some ((wordIndex : ℚ) / 15 * 1000) else none
        else none
      | none => none
    match wordResult with
    | some t => t
    | none =>
      match trigger.position with
      | some p => p / 15 * 1000
      | none =>
        match trigger.marker with
        | some m =>
          if m ≠ "" then
            match idxOfSub (jsToLower ("[" ++ m ++ "]")).toList
                (jsToLower text).toList with
            | some idx => (idx : ℚ) / 15 * 1000
            | none => -1
          else -1
        | none => -1

/-- `estimateAudioDuration`: `text.split(/\s+/).length / 180` minutes. -/
def estimateAudioDuration (text : String) : ℚ :=
  let wordCount := (jsSplitWs text).length
  (wordCount : ℚ) / 180 * 60 * 1000

/-- The pair of keyframes a single transition contributes to the timeline
(empty when its trigger does not resolve). -/
def transitionKeyframes (text : String) (transition : EmotionTransition) :
    List EmotionKeyframe :=
  if 0 ≤ calculateTriggerTime text transition then
    [{ time := calculateTriggerTime text transition
       emotion := transition.fromEmotion.type
       intensity := transition.fromEmotion.intensity
       transition := some transition },
     { time := calculateTriggerTime text transition + transition.duration
       emotion := transition.toEmotion.type
       intensity := transition.toEmotion.intensity
       transition := none }]
  else []

/-- `createEmotionTimeline`: default keyframe at `t = 0`, two keyframes per
resolvable transition, then a stable sort by time. -/
def createEmotionTimeline (text : String) (transitions : List EmotionTransition)
    (defaultEmotion : EmotionProfile) : EmotionTimeline :=
  let keyframes : List EmotionKeyframe :=
    { time := 0
      emotion := defaultEmotion.type
      intensity := defaultEmotion.intensity
      transition := none } :: transitions.flatMap (transitionKeyframes text)
  { keyframes := sortByTime (fun kf => kf.time) keyframes
    duration := estimateAudioDuration text
    defaultEmotion := defaultEmotion }

/-- `splitTextIntoWords`: split on `\s+` and drop empty tokens. -/
def splitTextIntoWords (text : String) : List String :=
  (jsSplitWs text).filter (fun w => w.length > 0)

/-- `interpolateEmotion` (used while a keyframe's transition window covers
the queried time): intensity interpolated through the transition's curve,
emotion type switched at 50% progress. -/
def interpolateEmotion (fromKeyframe : EmotionKeyframe) (currentTime : ℚ)
    (transition : EmotionTransition) : EmotionProfile :=
  let progress := (currentTime - fromKeyframe.time) / transition.duration
  let clampedProgress := max 0 (min 1 progress)
  let intensity := EmotionCurves.interpolateEmotionIntensity
    transition.fromEmotion.intensity transition.toEmotion.intensity
    clampedProgress transition.curve transition.controlPoints
  { type := if clampedProgress < 1/2 then transition.fromEmotion.type
            else transition.toEmotion.type
    intensity := intensity
    variations := [] }

/-- The scan over adjacent keyframe pairs inside `getEmotionAtTime`. -/
def getEmotionAtTimeGo (time : ℚ) : List EmotionKeyframe → Option EmotionProfile
  | current :: next :: rest =>
    if current.time ≤ time ∧ time ≤ next.time then
      match current.transition with
      | some tr =>
        if time ≤ current.time + tr.duration then
          some (interpolateEmotion current time tr)
        else some { type := current.emotion, intensity := current.intensity,
                    variations := [] }
      | none => some { type := current.emotion, intensity := current.intensity,
                       variations := [] }
    else getEmotionAtTimeGo time (next :: rest)
  | _ => none

/-- `getEmotionAtTime`: emotion in force at `time`, falling back to the last
keyframe beyond the end of the timeline. -/
def getEmotionAtTime (timeline : EmotionTimeline) (time : ℚ) : EmotionProfile :=
  match getEmotionAtTimeGo time timeline.keyframes with
  | some e => e
  | none =>
    let lastKeyframe := timeline.keyframes.getLastD
      { time := 0, emotion := .neutral, intensity := 0, transition := none }
    { type := lastKeyframe.emotion, intensity := lastKeyframe.intensity,
      variations := [] }

/-- `getTransitionAtTime`: data of the first keyframe whose transition window
contains `time`, if any. -/
def getTransitionAtTime (timeline : EmotionTimeline) (time : ℚ) :
    Option TransitionData :=
  timeline.keyframes.findSome? fun keyframe =>
    match keyframe.transition with
    | some tr =>
      if keyframe.time ≤ time ∧ time ≤ keyframe.time + tr.duration then
        some { fromEmotion := tr.fromEmotion
               toEmotion := tr.toEmotion
               progress := (time - keyframe.time) / tr.duration }
      else none
    | none => none

/-- The word loop of `generateEmotionSegments`, carrying the running time. -/
def generateEmotionSegmentsGo (timeline : EmotionTimeline) (currentTime : ℚ) :
    List String → List EmotionSegment
  | [] => []
  | word :: rest =>
    let wordDuration := (word.length : ℚ) / 15 * 1000
    let segmentEndTime := currentTime + wordDuration
    let emotionAtTime := getEmotionAtTime timeline currentTime
    let transitionData := getTransitionAtTime timeline currentTime
    { startTime := currentTime
      endTime := segmentEndTime
      text := word
      emotion := emotionAtTime
      isTransition := transitionData.isSome
      transitionData := transitionData } ::
      generateEmotionSegmentsGo timeline segmentEndTime rest

/-- `generateEmotionSegments`: one segment per whitespace-separated word. -/
def generateEmotionSegments (text : String) (timeline : EmotionTimeline) :
    List EmotionSegment :=
  generateEmotionSegmentsGo timeline 0 (splitTextIntoWords text)

/-- `processEmotionTransitions`: timeline, per-word segments, estimated
duration and the (unfiltered) transition count. -/
def processEmotionTransitions (text : String)
    (transitions : List EmotionTransition) (defaultEmotion : EmotionProfile) :
    EmotionTransitionResult :=
  let timeline := createEmotionTimeline text transitions defaultEmotion
  { timeline := timeline
    segments := generateEmotionSegments text timeline
    totalDuration := estimateAudioDuration text
    transitionCount := transitions.length }

/-- `validateTransition`: duration within `[minimumDuration, maximumDuration]`
and intensity difference at least `intensityThreshold`. -/
def validateTransition (config : TransitionConfig)
    (transition : EmotionTransition) : Bool :=
  if transition.duration < config.minimumDuration then false
  else if config.maximumDuration < transition.duration then false
  else if |transition.toEmotion.intensity - transition.fromEmotion.intensity| <
      config.intensityThreshold then false
  else true

end EmotionTransitionEngine

/-! ## Conversation data model (src/interfaces/conversation.interface.ts) -/

/-- `OverlapConfig` from conversation.interface.ts. -/
structure OverlapConfig where
  enabled : Bool
  targetLineId : Option String
  overlapStart : ℚ
  overlapDuration : ℚ
  volumeReduction : ℚ
deriving DecidableEq

/-- `DialogueTiming` from conversation.interface.ts. -/
structure DialogueTiming where
  startTime : ℚ
  endTime : Option ℚ
  pauseBefore : Option ℚ
  pauseAfter : Option ℚ
  overlap : Option OverlapConfig
  speedModifier : Option ℚ
deriving DecidableEq

/-- `DialogueLine` from conversation.interface.ts (the `audioEffects` and
`context` fields are never read by the scheduler or timeline builder). -/
structure DialogueLine where
  id : String
  characterId : String
  text : String
  emotion : Option EmotionProfile
  emotionTransitions : Option (List EmotionTransition)
  timing : DialogueTiming
deriving DecidableEq

/-- `ConversationGlobalSettings` from conversation.interface.ts. -/
structure ConversationGlobalSettings where
  pauseBetweenLines : ℚ
  crossfadeDuration : ℚ
  masterVolume : ℚ
  naturalTiming : Bool
deriving DecidableEq

/-- `ConversationCharacter`, reduced to the fields the validation and
scheduling steps read (`id`, `name`). -/
structure ConversationCharacter where
  id : String
  name : String
deriving DecidableEq

/-- `ConversationConfig` from conversation.interface.ts. -/
structure ConversationConfig where
  id : String
  title : String
  characters : List ConversationCharacter
  dialogue : List DialogueLine
  globalSettings : ConversationGlobalSettings
deriving DecidableEq

/-- The `type` tag of a `TimelineEvent`. -/
inductive EventType where
  | line_start | line_end | emotion_change | overlap_start | overlap_end
deriving DecidableEq

/-- `TimelineEvent` from conversation.interface.ts (the free-form `data`
payload is dropped; it never influences ordering or timing). -/
structure TimelineEvent where
  time : ℚ
  type : EventType
  characterId : String
  lineId : String
deriving DecidableEq

/-- `ConversationTimeline`: total duration, sorted event log and the
per-character cumulative speaking-time map (modelled as a function). -/
structure ConversationTimeline where
  totalDuration : ℚ
  events : List TimelineEvent
  characterUsage : String → ℚ

/-! ## ConversationManager (src/core/conversation-manager.ts) -/

namespace ConversationManager

/-- The first half of one `processDialogueTiming` iteration: mutate
`pauseBefore`, `startTime` and `endTime` of the line (this happens in the
source before the overlap lookup reads the array). -/
def scheduleLine (globalSettings : ConversationGlobalSettings)
    (i : Nat) (currentTime : ℚ) (line : DialogueLine) : DialogueLine :=
  let wordCount := (jsSplitWs line.text).length
  let estimatedDuration := (wordCount : ℚ) / 3 * 1000
  let pauseBefore :=
    match line.timing.pauseBefore with
    | some p => p
    | none => if i = 0 then 0 else globalSettings.pauseBetweenLines
  let startTime := currentTime + pauseBefore
  let endTime :=
    match line.timing.speedModifier with
    | some sm => if sm = 0 then startTime + estimatedDuration
                 else startTime + estimatedDuration / sm
    | none => startTime + estimatedDuration
  { line with timing :=
    { line.timing with
        pauseBefore := some pauseBefore
        startTime := startTime
        endTime := some endTime } }

/-- The second half of one iteration: when overlap is enabled with a truthy
target id, override `startTime` with `target.startTime + overlapStart`
(only if the target is found in the array and has a truthy `endTime`). -/
def applyOverlapStart (line : DialogueLine) (search : List DialogueLine) :
    DialogueLine :=
  match line.timing.overlap with
  | some ov =>
    if ov.enabled ∧ ov.targetLineId ≠ none ∧ ov.targetLineId ≠ some "" then
      match search.find? (fun l => some l.id = ov.targetLineId) with
      | some targetLine =>
        match targetLine.timing.endTime with
        | some e =>
          if e = 0 then line
          else { line with timing := { line.timing with
            startTime := targetLine.timing.startTime + ov.overlapStart } }
        | none => line
      | none => line
    else line
  | none => line

/-- The loop of `processDialogueTiming`: `done` is the already-updated front
of the array; the overlap lookup searches it, then the current line's
(already mutated) object, then the untouched rest. -/
def processDialogueTimingGo (globalSettings : ConversationGlobalSettings) :
    List DialogueLine → Nat → ℚ → List DialogueLine → List DialogueLine
  | _, _, _, [] => []
  | done, i, currentTime, line :: rest =>
    let scheduled := scheduleLine globalSettings i currentTime line
    let updated := applyOverlapStart scheduled (done ++ scheduled :: rest)
    let cursor := scheduled.timing.endTime.getD 0 +
      line.timing.pauseAfter.getD 0
    updated :: processDialogueTimingGo globalSettings (done ++ [updated])
      (i + 1) cursor rest

/-- `processDialogueTiming`: word-count based line scheduling. -/
def processDialogueTiming (dialogue : List DialogueLine)
    (globalSettings : ConversationGlobalSettings) : List DialogueLine :=
  processDialogueTimingGo globalSettings [] 0 0 dialogue

/-- The events `createConversationTimeline` pushes for one line, in push
order: `line_start`, `line_end`, one `emotion_change` per transition, and the
overlap pair when overlap is enabled. -/
def lineEvents (line : DialogueLine) : List TimelineEvent :=
  let endTime :=
    match line.timing.endTime with
    | some e => if e = 0 then line.timing.startTime + 3000 else e
    | none => line.timing.startTime + 3000
  [{ time := line.timing.startTime, type := .line_start,
     characterId := line.characterId, lineId := line.id },
   { time := endTime, type := .line_end,
     characterId := line.characterId, lineId := line.id }] ++
  (match line.emotionTransitions with
   | some transitions => transitions.map fun transition =>
      { time := line.timing.startTime +
          (match transition.triggers.time with
           | some t => if t = 0 then 0 else t
           | none => 0),
        type := .emotion_change,
        characterId := line.characterId, lineId := line.id }
   | none => []) ++
  (match line.timing.overlap with
   | some ov =>
     if ov.enabled then
       [{ time := line.timing.startTime, type := .overlap_start,
          characterId := line.characterId, lineId := line.id },
        { time := line.timing.startTime + ov.overlapDuration,
          type := .overlap_end,
          characterId := line.characterId, lineId := line.id }]
     else []
   | none => [])

/-- The `line_end` time used by `createConversationTimeline`
(`line.timing.endTime || line.timing.startTime + 3000`). -/
def lineEndTime (line : DialogueLine) : ℚ :=
  match line.timing.endTime with
  | some e => if e = 0 then line.timing.startTime + 3000 else e
  | none => line.timing.startTime + 3000

/-- `createConversationTimeline`: per-line events collected in dialogue order
and stable-sorted by time; total duration is the max `line_end` time;
`characterUsage` accumulates `end − start` per character. -/
def createConversationTimeline (dialogue : List DialogueLine) :
    ConversationTimeline :=
  let events := dialogue.flatMap lineEvents
  let totalDuration := dialogue.foldl
    (fun acc line => max acc (lineEndTime line)) 0
  let characterUsage := fun cid =>
    (dialogue.filter (fun line => line.characterId = cid)).foldl
      (fun acc line => acc + (lineEndTime line - line.timing.startTime)) 0
  { totalDuration := totalDuration
    events := sortByTime (fun e => e.time) events
    characterUsage := characterUsage }

/-- `validateConversationConfig`: throws (here: returns `Except.error`) on an
empty character list, an empty dialogue, an unknown `characterId`, or an
unresolvable overlap target, in that order. -/
def validateConversationConfig (config : ConversationConfig) :
    Except String Unit :=
  if config.characters.length = 0 then
    Except.error "Conversation must have at least one character"
  else if config.dialogue.length = 0 then
    Except.error "Conversation must have at least one dialogue line"
  else
    let characterIds := config.characters.map (fun c => c.id)
    match config.dialogue.find?
        (fun line => ¬ characterIds.contains line.characterId) with
    | some line =>
      Except.error
        ("Dialogue line references unknown character: " ++ line.characterId)
    | none =>
      let lineIds := config.dialogue.map (fun l => l.id)
      match config.dialogue.find? (fun line =>
          match line.timing.overlap with
          | some ov =>
            match ov.targetLineId with
            | some t => t ≠ "" ∧ ¬ lineIds.contains t
            | none => false
          | none => false) with
      | some line =>
        Except.error ("Overlap target line not found: " ++
          (match line.timing.overlap with
           | some ov => ov.targetLineId.getD ""
           | none => ""))
      | none => Except.ok ()

/-- The pure skeleton of a `generateConversation` run: validation, then
scheduling, then timeline construction.  Audio synthesis (a remote provider
call) and the statistics derived from it are outside the embedding. -/
structure CoreResult where
  processedDialogue : List DialogueLine
  timeline : ConversationTimeline

/-- `generateConversation`'s control flow up to timeline construction:
validation happens before any other work, so its errors abort the run. -/
def generateConversationCore (config : ConversationConfig) :
    Except String CoreResult :=
  match validateConversationConfig config with
  | Except.error e => Except.error e
  | Except.ok _ =>
    let processedDialogue :=
      processDialogueTiming config.dialogue config.globalSettings
    Except.ok { processedDialogue := processedDialogue
                timeline := createConversationTimeline processedDialogue }

end ConversationManager

/-! ## AudioMixer (src/interfaces/ssml.interface.ts) -/

/-- Map with the element's position, starting at `start`. -/
def mapIdxFrom (f : Nat → α → α) : Nat → List α → List α
  | _, [] => []
  | j, a :: as => f j a :: mapIdxFrom f (j + 1) as

namespace AudioMixer

/-- `mixAudioSegmentIntoBuffer`, at the granularity of individual 16-bit
samples: buffers are lists of interleaved stereo samples, `startSample` is a
frame index (2 samples per frame).  Samples covered by the segment are summed
with the volume-scaled, rounded segment sample and saturated into the 16-bit
range; all others are left untouched.  (The byte-level guards of the source
skip a trailing partial frame; sample lists have none.) -/
def mixAudioSegmentIntoBuffer (segmentBuffer mixBuffer : List Int)
    (startSample : Nat) (volume : ℚ) : List Int :=
  let off := startSample * 2
  mapIdxFrom (fun j mixValue =>
    if off ≤ j ∧ j < off + segmentBuffer.length then
      clamp16 (mixValue + jsRound ((segmentBuffer.getD (j - off) 0 : ℚ) * volume))
    else mixValue) 0 mixBuffer

/-- The peak scan of `normalizeAudio`: maximum of `Math.abs(sample)`,
starting from 0.  The source loops over whole 4-byte stereo frames
(`totalSamples = floor(bytes / 4)`), so this per-sample fold models it for
buffers made of whole frames — even-length sample lists, which is every
buffer the mixer processes (the master is allocated as `totalSamples·4`
bytes); a trailing half frame, which the source's loop would skip, is outside
the modelled domain. -/
def peakOf (buffer : List Int) : Int :=
  buffer.foldl (fun peak sample => max peak |sample|) 0

/-- `32767 * 0.95`, the normalization headroom target. -/
def maxNormValue : ℚ := 32767 * (95 / 100)

/-- `normalizeAudio`: identity when the peak is 0, otherwise scale every
sample by `maxNormValue / peak` (note: no cap at 1.0), round, re-clamp.
Like `peakOf`, this models the source's whole-frame loop on even-length
(whole-frame) interleaved sample lists, where the two coincide sample for
sample. -/
def normalizeAudio (buffer : List Int) : List Int :=
  if peakOf buffer = 0 then buffer
  else buffer.map fun (sample : Int) =>
    clamp16 (jsRound ((sample : ℚ) * (maxNormValue / (peakOf buffer : ℚ))))

/-- Modelled from the spec: "If `peak > 0`, multiply every sample by
`min(1.0, 32767·0.95 / peak)`, then re-clamp" — the claimed normalization
with the factor capped at 1.0, for comparison with `normalizeAudio`. -/
def normalizeAudioSpec (buffer : List Int) : List Int :=
  if peakOf buffer = 0 then buffer
  else buffer.map fun (sample : Int) =>
    clamp16 (jsRound ((sample : ℚ) * min 1 (maxNormValue / (peakOf buffer : ℚ))))

/-- `applyCompression`: soft-knee above `threshold = 32767·(1−level)` with
ratio `1 + 3·level`, then round and clamp every sample (modelled, like
`normalizeAudio`, on whole-frame sample lists). -/
def applyCompression (buffer : List Int) (compressionLevel : ℚ) : List Int :=
  let threshold := 32767 * (1 - compressionLevel)
  let r := 1 + compressionLevel * 3
  buffer.map fun (sample : Int) =>
    let absSample := |(sample : ℚ)|
    let compressedSample :=
      if threshold < absSample then
        let overage := absSample - threshold
        let compressedOverage := overage / r
        let sign : ℚ := if 0 ≤ sample then 1 else -1
        sign * (threshold + compressedOverage)
      else (sample : ℚ)
    clamp16 (jsRound compressedSample)

end AudioMixer

/-! ## Prompt interpreter (src/utils/prompt-parser.ts) -/

/-- The `gender` field of `VoiceCharacteristics`. -/
inductive Gender where
  | male | female | neutral
deriving DecidableEq

/-- The `age` field of `VoiceCharacteristics`. -/
inductive AgeGroup where
  | child | young | adult | senior
deriving DecidableEq

/-- The `timbre` field of `VoiceCharacteristics`. -/
inductive Timbre where
  | deep | medium | high
deriving DecidableEq

/-- The `pace` field of `VoiceCharacteristics`. -/
inductive Pace where
  | slow | normal | fast
deriving DecidableEq

/-- `VoiceCharacteristics` from voice.interface.ts. -/
structure VoiceCharacteristics where
  gender : Gender
  age : AgeGroup
  accent : String
  personality : List String
  defaultEmotion : EmotionProfile
  timbre : Timbre
  pace : Pace
deriving DecidableEq

/-- The accent keyword table of `parseVoicePrompt`, in object-key order. -/
def accentTable : List (String × List String) :=
  [("australian", ["australian", "aussie"]),
   ("british", ["british", "uk", "english", "london"]),
   ("american", ["american", "us", "usa"]),
   ("irish", ["irish", "ireland"]),
   ("scottish", ["scottish", "scotland"]),
   ("southern", ["southern", "texan", "georgia"]),
   ("new york", ["new york", "brooklyn", "bronx"]),
   ("california", ["california", "valley", "surfer"])]

/-- The personality keyword table of `parseVoicePrompt`, in object-key
order. -/
def personalityTable : List (String × List String) :=
  [("cheerful", ["cheerful", "happy", "joyful", "upbeat"]),
   ("calm", ["calm", "peaceful", "serene", "relaxed", "soothing"]),
   ("energetic", ["energetic", "excited", "dynamic", "lively"]),
   ("wise", ["wise", "contemplative", "thoughtful", "sage"]),
   ("friendly", ["friendly", "warm", "welcoming", "kind"]),
   ("professional", ["professional", "business", "corporate", "formal"]),
   ("dramatic", ["dramatic", "theatrical", "expressive"]),
   ("mysterious", ["mysterious", "enigmatic", "secretive"]),
   ("confident", ["confident", "assertive", "strong"]),
   ("gentle", ["gentle", "soft", "tender", "caring"])]

/-- First accent whose keyword list matches, else `"neutral"`. -/
def findAccent (lowerPrompt : String) : List (String × List String) → String
  | [] => "neutral"
  | (accentName, keywords) :: rest =>
    if keywords.any (fun keyword => jsIncludes lowerPrompt keyword) then
      accentName
    else findAccent lowerPrompt rest

/-- `parseVoicePrompt` from prompt-parser.ts: sequential keyword rules over
the lowercased prompt.  Note the gender rules run in order `male`, `female`,
`woman`, `man`, each overwriting the previous result. -/
def parseVoicePrompt (prompt : String) : VoiceCharacteristics :=
  let lowerPrompt := jsToLower prompt
  let g0 := Gender.neutral
  let g1 := if jsIncludes lowerPrompt "male" &&
      !(jsIncludes lowerPrompt "female") then Gender.male else g0
  let g2 := if jsIncludes lowerPrompt "female" then Gender.female else g1
  let g3 := if jsIncludes lowerPrompt "woman" then Gender.female else g2
  let gender := if jsIncludes lowerPrompt "man" &&
      !(jsIncludes lowerPrompt "woman") then Gender.male else g3
  let a1 := if jsIncludes lowerPrompt "child" || jsIncludes lowerPrompt "kid"
    then AgeGroup.child else AgeGroup.adult
  let a2 := if jsIncludes lowerPrompt "young" || jsIncludes lowerPrompt "teen"
    then AgeGroup.young else a1
  let age := if jsIncludes lowerPrompt "old" || jsIncludes lowerPrompt "senior"
      || jsIncludes lowerPrompt "elderly" then AgeGroup.senior else a2
  let accent := findAccent lowerPrompt accentTable
  let personality := (personalityTable.filter fun trait =>
    trait.2.any (fun keyword => jsIncludes lowerPrompt keyword)).map
      (fun trait => trait.1)
  let timbre := if jsIncludes lowerPrompt "deep" || jsIncludes lowerPrompt "low"
      || jsIncludes lowerPrompt "bass" then Timbre.deep
    else if jsIncludes lowerPrompt "high" || jsIncludes lowerPrompt "light"
      || jsIncludes lowerPrompt "soprano" then Timbre.high
    else Timbre.medium
  let pace := if jsIncludes lowerPrompt "slow" ||
      jsIncludes lowerPrompt "relaxed" || jsIncludes lowerPrompt "leisurely"
    then Pace.slow
    else if jsIncludes lowerPrompt "fast" || jsIncludes lowerPrompt "quick"
      || jsIncludes lowerPrompt "rapid" then Pace.fast
    else Pace.normal
  let defaultEmotionType :=
    if personality.contains "cheerful" then EmotionType.happy
    else if personality.contains "calm" then EmotionType.calm
    else if personality.contains "energetic" then EmotionType.excited
    else if personality.contains "dramatic" then EmotionType.excited
    else EmotionType.neutral
  { gender := gender
    age := age
    accent := accent
    personality := personality
    defaultEmotion :=
      { type := defaultEmotionType, intensity := 1/2, variations := [] }
    timbre := timbre
    pace := pace }

/-! ## SubtitleReader (src/video/format-readers/premiere-reader.ts) -/

namespace SubtitleReader

/-- The emotion record attached to a subtitle entry
(`{primary, intensity: 0.7, confidence: 0.8}`). -/
structure SubtitleEmotion where
  primary : String
  intensity : ℚ
  confidence : ℚ
deriving DecidableEq

/-- `SubtitleEntry` from video.interface.ts. -/
structure SubtitleEntry where
  index : Int
  startTime : ℚ
  endTime : ℚ
  startTimecode : String
  endTimecode : String
  text : String
  speaker : Option String
  emotion : Option SubtitleEmotion
deriving DecidableEq

/-- The `metadata` record of a `SubtitleTrack`. -/
structure SubtitleMetadata where
  language : String
  encoding : String
  frameRate : ℚ
  totalEntries : Nat
deriving DecidableEq

/-- `SubtitleTrack` from video.interface.ts. -/
structure SubtitleTrack where
  id : String
  language : String
  format : String
  entries : List SubtitleEntry
  metadata : SubtitleMetadata
deriving DecidableEq

/-- Index of the last `'\n'` in a list, if any. -/
def lastNewlineIdx : List Char → Option Nat
  | [] => none
  | c :: rest =>
    match lastNewlineIdx rest with
    | some k => some (k + 1)
    | none => if c = '\n' then some 0 else none

/-- The scanning loop of splitting on `/\n\s*\n/`: at a `'\n'`, the
(greedy, backtracking) separator extends over the following whitespace run up
to its last `'\n'`.  Structural recursion on a fuel bounded by the input
length. -/
def splitBlocksGo : Nat → List Char → List Char → List (List Char)
  | 0, acc, rest => [acc.reverse ++ rest]
  | _ + 1, acc, [] => [acc.reverse]
  | fuel + 1, acc, c :: rest =>
    if c = '\n' then
      match lastNewlineIdx (rest.takeWhile isJsWs) with
      | some k => acc.reverse :: splitBlocksGo fuel [] (rest.drop (k + 1))
      | none => splitBlocksGo fuel (c :: acc) rest
    else splitBlocksGo fuel (c :: acc) rest

/-- JS `content.split(/\n\s*\n/)`. -/
def jsSplitBlocks (s : String) : List String :=
  (splitBlocksGo (s.length + 1) [] s.toList).map String.mk

/-- JS `parseInt(s, 10)`: skip leading whitespace, optional sign, leading
decimal digits; `NaN` (here `none`) when no digits follow. -/
def parseIntOpt (s : String) : Option Int :=
  let l := s.toList.dropWhile isJsWs
  let signed : Bool × List Char :=
    match l with
    | '-' :: rest => (true, rest)
    | '+' :: rest => (false, rest)
    | _ => (false, l)
  let digits := signed.2.takeWhile Char.isDigit
  if digits.isEmpty then none
  else
    let n : Nat := digits.foldl (fun acc c => acc * 10 + (c.toNat - 48)) 0
    some (if signed.1 then -(n : Int) else (n : Int))

/-- Two decimal digits, returning their value and the rest. -/
def take2Digits : List Char → Option (Nat × List Char)
  | a :: b :: rest =>
    if a.isDigit && b.isDigit then
      some ((a.toNat - 48) * 10 + (b.toNat - 48), rest)
    else none
  | _ => none

/-- Three decimal digits, returning their value and the rest. -/
def take3Digits : List Char → Option (Nat × List Char)
  | a :: b :: c :: rest =>
    if a.isDigit && b.isDigit && c.isDigit then
      some ((a.toNat - 48) * 100 + (b.toNat - 48) * 10 + (c.toNat - 48), rest)
    else none
  | _ => none

/-- Expect a single literal character. -/
def expectChar (c : Char) : List Char → Option (List Char)
  | x :: rest => if x = c then some rest else none
  | [] => none

/-- `\s*-->\s*`, the arrow part of the SRT timecode regex. -/
def takeArrow (l : List Char) : Option (List Char) :=
  match l.dropWhile isJsWs with
  | '-' :: '-' :: '>' :: rest => some (rest.dropWhile isJsWs)
  | _ => none

/-- One `HH:MM:SS,mmm` group of the SRT timecode regex. -/
def takeSrtTime (l : List Char) : Option ((Nat × Nat × Nat × Nat) × List Char) := do
  let (h, r1) ← take2Digits l
  let r2 ← expectChar ':' r1
  let (m, r3) ← take2Digits r2
  let r4 ← expectChar ':' r3
  let (s, r5) ← take2Digits r4
  let r6 ← expectChar ',' r5
  let (ms, r7) ← take3Digits r6
  pure ((h, m, s, ms), r7)

/-- Attempt the full SRT timecode regex
`(\d{2}):(\d{2}):(\d{2}),(\d{3})\s*-->\s*(\d{2}):(\d{2}):(\d{2}),(\d{3})`
anchored at the head of the list. -/
def srtTimeMatchAt (l : List Char) :
    Option ((Nat × Nat × Nat × Nat) × (Nat × Nat × Nat × Nat)) := do
  let (a, r1) ← takeSrtTime l
  let r2 ← takeArrow r1
  let (b, _) ← takeSrtTime r2
  pure (a, b)

/-- Unanchored leftmost search for the SRT timecode pattern
(`String.prototype.match` with a non-global regex). -/
def srtTimeSearch : List Char →
    Option ((Nat × Nat × Nat × Nat) × (Nat × Nat × Nat × Nat))
  | [] => srtTimeMatchAt []
  | c :: rest =>
    match srtTimeMatchAt (c :: rest) with
    | some m => some m
    | none => srtTimeSearch rest

/-- `parseTimeToSeconds`. -/
def parseTimeToSeconds (hours minutes seconds milliseconds : Nat) : ℚ :=
  (hours : ℚ) * 3600 + (minutes : ℚ) * 60 + (seconds : ℚ) +
    (milliseconds : ℚ) / 1000

/-- `String(n).padStart(2, '0')`. -/
def padStart2 (n : Int) : String :=
  let s := toString n
  if s.length < 2 then "0" ++ s else s

/-- `secondsToTimecode`: `HH:MM:SS:FF` at 25 fps. -/
def secondsToTimecode (seconds : ℚ) : String :=
  let hours := ⌊seconds / 3600⌋
  let minutes := ⌊jsMod seconds 3600 / 60⌋
  let secs := ⌊jsMod seconds 60⌋
  let frames := ⌊jsMod seconds 1 * 25⌋
  padStart2 hours ++ ":" ++ padStart2 minutes ++ ":" ++ padStart2 secs ++
    ":" ++ padStart2 frames

/-- Split at the first occurrence of `target`, returning the characters
before it and those after it. -/
def splitAtFirst (target : Char) : List Char → Option (List Char × List Char)
  | [] => none
  | c :: rest =>
    if c = target then some ([], rest)
    else
      match splitAtFirst target rest with
      | some (before, after) => some (c :: before, after)
      | none => none

/-- The speaker regex `/^([A-Z][^:]*?):\s*(.+)/s`: an uppercase first letter,
the (lazy) run up to the first colon as group 1, greedy whitespace, and a
nonempty remainder as group 2 (backtracking into the whitespace run when the
remainder would otherwise be empty). -/
def speakerMatchFn (l : List Char) : Option (List Char × List Char) :=
  match l with
  | [] => none
  | c :: rest =>
    if 'A' ≤ c ∧ c ≤ 'Z' then
      match splitAtFirst ':' rest with
      | some (before, after) =>
        if after.isEmpty then none
        else
          let wsRun := (after.takeWhile isJsWs).length
          let j := min wsRun (after.length - 1)
          some (c :: before, after.drop j)
      | none => none
    else none

/-- The bracketed-emotion regex `/\[([a-z]+)\]/i` anchored at the head:
`[`, one or more ASCII letters, `]`; returns the letters and the rest. -/
def bracketAt : List Char → Option (List Char × List Char)
  | '[' :: rest =>
    let letters := rest.takeWhile fun c =>
      ('a' ≤ c ∧ c ≤ 'z') ∨ ('A' ≤ c ∧ c ≤ 'Z')
    if letters.isEmpty then none
    else
      match rest.drop letters.length with
      | ']' :: rest2 => some (letters, rest2)
      | _ => none
  | _ => none

/-- Leftmost search for a bracketed emotion tag. -/
def findBracket : List Char → Option (List Char)
  | [] => none
  | c :: rest =>
    match bracketAt (c :: rest) with
    | some (letters, _) => some letters
    | none => findBracket rest

/-- `.replace(/\[[a-z]+\]/gi, '')`: remove every bracketed letter tag. -/
def removeBracketsGo : Nat → List Char → List Char
  | 0, l => l
  | _ + 1, [] => []
  | fuel + 1, c :: rest =>
    match bracketAt (c :: rest) with
    | some (_, rest2) => removeBracketsGo fuel rest2
    | none => c :: removeBracketsGo fuel rest

/-- `.replace(/<[^>]*>/g, '')` (or the `{...}` version): drop every
delimited tag that has a closing delimiter. -/
def removeDelimGo (op cl : Char) : Nat → List Char → List Char
  | 0, l => l
  | _ + 1, [] => []
  | fuel + 1, c :: rest =>
    if c = op then
      match splitAtFirst cl rest with
      | some (_, after) => removeDelimGo op cl fuel after
      | none => c :: removeDelimGo op cl fuel rest
    else c :: removeDelimGo op cl fuel rest

/-- The result record of `parseTextAnnotations`. -/
structure TextAnnotations where
  cleanText : String
  speaker : Option String
  emotion : Option SubtitleEmotion
deriving DecidableEq

/-- `parseTextAnnotations`: extract `SPEAKER:` prefix and the first
bracketed emotion tag, remove all bracketed tags, strip HTML and styling
tags, and trim. -/
def parseTextAnnotations (text : String) : TextAnnotations :=
  let step1 : Option String × String :=
    match speakerMatchFn text.toList with
    | some (g1, g2) => (some (jsTrim (String.mk g1)), jsTrim (String.mk g2))
    | none => (none, text)
  let speaker := step1.1
  let clean1 := step1.2
  let step2 : Option SubtitleEmotion × String :=
    match findBracket clean1.toList with
    | some letters =>
      (some { primary := String.mk (letters.map Char.toLower),
              intensity := 7/10, confidence := 8/10 },
       jsTrim (String.mk (removeBracketsGo clean1.length clean1.toList)))
    | none => (none, clean1)
  let emotion := step2.1
  let clean2 := step2.2
  let noAngle := removeDelimGo '<' '>' clean2.length clean2.toList
  let noStyle := removeDelimGo (Char.ofNat 123) (Char.ofNat 125)
    noAngle.length noAngle
  { cleanText := jsTrim (String.mk noStyle)
    speaker := speaker
    emotion := emotion }

/-- JS `String.prototype.split('\n')` on a character list. -/
def splitOnNl : List Char → List (List Char)
  | [] => [[]]
  | c :: rest =>
    match splitOnNl rest with
    | t :: ts => if c = '\n' then [] :: t :: ts else (c :: t) :: ts
    | [] => [[c]]

/-- Parse one SRT block: index line, timecode line, text lines. -/
def parseSRTBlock (block : String) : Option SubtitleEntry :=
  let lines := ((splitOnNl block.toList).map String.mk).map jsTrim
  if lines.length < 3 then none
  else
    match parseIntOpt (lines.getD 0 "") with
    | none => none
    | some index =>
      match srtTimeSearch (lines.getD 1 "").toList with
      | none => none
      | some ((h1, m1, s1, ms1), (h2, m2, s2, ms2)) =>
        let startTime := parseTimeToSeconds h1 m1 s1 ms1
        let endTime := parseTimeToSeconds h2 m2 s2 ms2
        let text := String.intercalate "\n" (lines.drop 2)
        let ann := parseTextAnnotations text
        some { index := index
               startTime := startTime
               endTime := endTime
               startTimecode := secondsToTimecode startTime
               endTimecode := secondsToTimecode endTime
               text := ann.cleanText
               speaker := ann.speaker
               emotion := ann.emotion }

/-- `parseSRT`: blank-line separated blocks, skipping malformed ones. -/
def parseSRT (content : String) : SubtitleTrack :=
  let blocks := (jsSplitBlocks content).filter fun b => jsTrim b ≠ ""
  let entries := blocks.filterMap parseSRTBlock
  { id := "subtitle_track"
    language := "en"
    format := "srt"
    entries := entries
    metadata := { language := "en", encoding := "utf-8", frameRate := 25,
                  totalEntries := entries.length } }

end SubtitleReader

/-! ## Spec-side scheduling formula (for the refinement claim about
`processDialogueTiming`) -/

namespace SpecSchedule

/-- Modelled from the spec: the §4.6 step-2 schedule for lines without
explicit `pause_before`, `speed_multiplier` or overlap — `pause_before` is 0
for the first line and `pause_between_lines` otherwise, `start = cursor +
pause_before`, `end = start + (word_count / 3)·1000`, and the cursor advances
to `end + pause_after`.  Lines are given as `(word_count, pause_after)`
pairs. -/
def specScheduleGo (pauseBetween : ℚ) (cursor : ℚ) (i : Nat) :
    List (Nat × ℚ) → List (ℚ × Option ℚ)
  | [] => []
  | (wordCount, pauseAfter) :: rest =>
    let pauseBefore : ℚ := if i = 0 then 0 else pauseBetween
    let start := cursor + pauseBefore
    let stop := start + (wordCount : ℚ) / 3 * 1000
    (start, some stop) :: specScheduleGo pauseBetween (stop + pauseAfter)
      (i + 1) rest

/-- The full spec schedule starting from cursor 0. -/
def specSchedule (lines : List (Nat × ℚ)) (pauseBetween : ℚ) :
    List (ℚ × Option ℚ) :=
  specScheduleGo pauseBetween 0 0 lines

end SpecSchedule

/-! ## Concrete inputs used by the witnesses and counterexamples -/

/-- A neutral default emotion at intensity 0.5. -/
def neutralProfile : EmotionProfile :=
  { type := .neutral, intensity := 1/2, variations := [] }

/-- `calm @ 0.6`. -/
def calmProfile : EmotionProfile :=
  { type := .calm, intensity := 3/5, variations := [] }

/-- `excited @ 0.9`. -/
def excitedProfile : EmotionProfile :=
  { type := .excited, intensity := 9/10, variations := [] }

/-- A transition whose 100 ms duration is below the 500 ms minimum, with a
time trigger at 0. -/
def shortTransition : EmotionTransition :=
  { id := none
    fromEmotion := calmProfile
    toEmotion := excitedProfile
    duration := 100
    curve := .linear
    triggers := { word := none, time := some 0, position := none, marker := none }
    controlPoints := none }

/-- A valid 1500 ms transition triggered by the word `"excited"`. -/
def wordTransition : EmotionTransition :=
  { id := none
    fromEmotion := calmProfile
    toEmotion := excitedProfile
    duration := 1500
    curve := .easeInOut
    triggers := { word := some "excited", time := none, position := none,
                  marker := none }
    controlPoints := none }

/-- A single conversation character. -/
def characterAlice : ConversationCharacter := { id := "a", name := "Alice" }

/-- Default-ish global settings with a 500 ms pause between lines. -/
def settings500 : ConversationGlobalSettings :=
  { pauseBetweenLines := 500, crossfadeDuration := 200, masterVolume := 1,
    naturalTiming := true }

/-- Global settings with no pause between lines. -/
def settings0 : ConversationGlobalSettings :=
  { pauseBetweenLines := 0, crossfadeDuration := 200, masterVolume := 1,
    naturalTiming := true }

/-- A dialogue line with the given id, character and text, and fully default
timing. -/
def plainLine (id characterId text : String) : DialogueLine :=
  { id := id
    characterId := characterId
    text := text
    emotion := none
    emotionTransitions := none
    timing := { startTime := 0, endTime := none, pauseBefore := none,
                pauseAfter := none, overlap := none, speedModifier := none } }

/-- A config with one character and no dialogue lines. -/
def configNoDialogue : ConversationConfig :=
  { id := "c1", title := "empty", characters := [characterAlice],
    dialogue := [], globalSettings := settings500 }

/-- The three-line scheduling scenario: 12, 8 and 5 words. -/
def dialogue1285 : List DialogueLine :=
  [plainLine "A1" "a" "w1 w2 w3 w4 w5 w6 w7 w8 w9 w10 w11 w12",
   plainLine "B1" "b" "w1 w2 w3 w4 w5 w6 w7 w8",
   plainLine "A2" "a" "w1 w2 w3 w4 w5"]

/-- Two adjacent three-word lines: with no pauses the first line's end time
equals the second line's start time. -/
def dialogueAdjacent : List DialogueLine :=
  [plainLine "l1" "a" "a b c", plainLine "l2" "a" "a b c"]

/-- The SRT block of the concrete parsing scenario. -/
def srtInput : String := "1\n00:00:01,000 --> 00:00:03,000\nALICE: Hello [happy]!\n"

/-! ## Lemmas about the stable sort -/

section StableSortLemmas

variable {α : Type} (key : α → ℚ)

theorem mem_insertByTime {x a : α} {l : List α} :
    a ∈ insertByTime key x l ↔ a = x ∨ a ∈ l := by
  induction l with
  | nil => simp [insertByTime]
  | cons y ys ih =>
    simp only [insertByTime]
    split
    · simp only [List.mem_cons, ih]
      tauto
    · simp [List.mem_cons]

theorem mem_sortByTime {a : α} {l : List α} :
    a ∈ sortByTime key l ↔ a ∈ l := by
  induction l with
  | nil => simp [sortByTime]
  | cons x xs ih => simp [sortByTime, mem_insertByTime, ih]

theorem pairwise_insertByTime {x : α} {l : List α}
    (h : List.Pairwise (fun a b => key a ≤ key b) l) :
    List.Pairwise (fun a b => key a ≤ key b) (insertByTime key x l) := by
  induction l with
  | nil => simp [insertByTime]
  | cons y ys ih =>
    rcases List.pairwise_cons.1 h with ⟨hy, hys⟩
    simp only [insertByTime]
    split
    · refine List.pairwise_cons.2 ⟨?_, ih hys⟩
      intro b hb
      rcases (mem_insertByTime key).1 hb with rfl | hb'
      · exact le_of_lt (by assumption)
      · exact hy b hb'
    · refine List.pairwise_cons.2 ⟨?_, h⟩
      intro b hb
      rcases List.mem_cons.1 hb with rfl | hb'
      · exact le_of_not_lt (by assumption)
      · exact le_trans (le_of_not_lt (by assumption)) (hy b hb')

theorem pairwise_sortByTime (l : List α) :
    List.Pairwise (fun a b => key a ≤ key b) (sortByTime key l) := by
  induction l with
  | nil => simp [sortByTime]
  | cons x xs ih => exact pairwise_insertByTime key ih

theorem insertByTime_eq_cons {x : α} {l : List α}
    (h : ∀ y ∈ l, ¬ key y < key x) : insertByTime key x l = x :: l := by
  cases l with
  | nil => rfl
  | cons y ys =>
    simp only [insertByTime]
    rw [if_neg (h y (List.mem_cons_self y ys))]

theorem sortByTime_cons_min {x : α} {xs : List α}
    (h : ∀ y ∈ xs, key x ≤ key y) :
    sortByTime key (x :: xs) = x :: sortByTime key xs := by
  simp only [sortByTime]
  exact insertByTime_eq_cons key fun y hy =>
    not_lt.2 (h y ((mem_sortByTime key).1 hy))

theorem length_insertByTime (x : α) (l : List α) :
    (insertByTime key x l).length = l.length + 1 := by
  induction l with
  | nil => rfl
  | cons y ys ih =>
    simp only [insertByTime]
    split <;> simp [ih]

theorem length_sortByTime (l : List α) :
    (sortByTime key l).length = l.length := by
  induction l with
  | nil => rfl
  | cons x xs ih => simp [sortByTime, length_insertByTime, ih]

end StableSortLemmas

/-! ## General helper lemmas -/

theorem clamp16_bounds (x : Int) : -32768 ≤ clamp16 x ∧ clamp16 x ≤ 32767 := by
  unfold clamp16
  constructor
  · exact le_max_left _ _
  · exact max_le (by norm_num) (min_le_left _ _)

theorem clamp16_le_of_le {x bound : Int} (h1 : -bound ≤ x) (h2 : x ≤ bound)
    (hble : bound ≤ 32767) : -bound ≤ clamp16 x ∧ clamp16 x ≤ bound := by
  unfold clamp16
  constructor
  · refine le_max_of_le_right ?_
    exact le_min (by omega) h1
  · refine max_le (by omega) ?_
    exact le_trans (min_le_right _ _) h2

theorem jsRound_le_of_le {q bound : ℚ} (h : q ≤ bound) :
    jsRound q ≤ ⌊bound + 1/2⌋ := by
  unfold jsRound
  exact Int.floor_mono (by linarith)

theorem le_jsRound_of_le {q bound : ℚ} (h : bound ≤ q) :
    ⌊bound + 1/2⌋ ≤ jsRound q := by
  unfold jsRound
  exact Int.floor_mono (by linarith)

theorem init_le_foldl_max_abs (l : List Int) :
    ∀ init : Int, init ≤ l.foldl (fun peak s => max peak |s|) init := by
  induction l with
  | nil => intro init; exact le_refl _
  | cons a l ih =>
    intro init
    exact le_trans (le_max_left init |a|) (ih (max init |a|))

theorem abs_le_foldl_max_abs {s : Int} {l : List Int} (hs : s ∈ l) :
    ∀ init : Int, |s| ≤ l.foldl (fun peak v => max peak |v|) init := by
  induction l with
  | nil => cases hs
  | cons a l ih =>
    intro init
    rcases List.mem_cons.1 hs with rfl | hmem
    · exact le_trans (le_max_right init |s|)
        (init_le_foldl_max_abs l (max init |s|))
    · exact ih hmem (max init |a|)

theorem abs_le_peakOf {s : Int} {buffer : List Int} (hs : s ∈ buffer) :
    |s| ≤ AudioMixer.peakOf buffer :=
  abs_le_foldl_max_abs hs 0

theorem peakOf_nonneg (buffer : List Int) : 0 ≤ AudioMixer.peakOf buffer :=
  init_le_foldl_max_abs buffer 0

theorem mem_mapIdxFrom {f : Nat → α → α} {b : α} :
    ∀ {j : Nat} {l : List α}, b ∈ mapIdxFrom f j l → ∃ k a, a ∈ l ∧ b = f k a := by
  intro j l
  induction l generalizing j with
  | nil => intro h; cases h
  | cons a as ih =>
    intro h
    rcases List.mem_cons.1 h with rfl | hmem
    · exact ⟨j, a, List.mem_cons_self a as, rfl⟩
    · rcases ih hmem with ⟨k, a', ha', rfl⟩
      exact ⟨k, a', List.mem_cons_of_mem a ha', rfl⟩

/-! ## Claim theorems -/

/-- C10: there is a prompt containing the token `female` for which
`parseVoicePrompt` returns gender `male`: `"female human voice"` contains the
substring `man` (inside `human`) but not `woman`, so the later `man` rule
overwrites the `female` rule's result. -/
theorem C10_female_prompt_parsed_as_male :
    (parseVoicePrompt "female human voice").gender = Gender.male ∧
    jsIncludes (jsToLower "female human voice") "female" = true ∧
    jsIncludes (jsToLower "female human voice") "man" = true ∧
    jsIncludes (jsToLower "female human voice") "woman" = false := by
  decide

/-- C8 counterexample: the Bézier curve with control points `(0,0)` and
`(1,1)` evaluated at progress `1/4` yields `5/32`, while linear easing yields
`1/4`; the difference `3/32 ≈ 0.094` is far beyond numerical tolerance. -/
theorem C8_counterexample_bezier_not_linear :
    EmotionCurves.bezier (1/4) (some [(0, 0), (1, 1)]) = 5/32 ∧
    EmotionCurves.linear (1/4) = 1/4 ∧
    ¬ |EmotionCurves.bezier (1/4) (some [(0, 0), (1, 1)]) -
        EmotionCurves.linear (1/4)| ≤ 1/20 := by
  refine ⟨?_, ?_, ?_⟩
  · norm_num [EmotionCurves.bezier]
  · norm_num [EmotionCurves.linear]
  · norm_num [EmotionCurves.bezier, EmotionCurves.linear, abs_sub_comm]
    rw [abs_of_pos (by norm_num)]
    norm_num

/-- C8 amended: with control points `(0,0)` and `(1,1)` the bezier easing is
the smoothstep `3t² − 2t³`, not the identity (they agree only at 0, 1/2 and
1); the easing equals the identity exactly when the control points'
y-coordinates are `1/3` and `2/3`. -/
theorem C8_bezier_unit_control_points_is_smoothstep (t : ℚ) :
    EmotionCurves.bezier t (some [(0, 0), (1, 1)]) = 3 * t ^ 2 - 2 * t ^ 3 ∧
    EmotionCurves.bezier t (some [(0, 1/3), (1, 2/3)]) = t := by
  constructor <;>
    · simp [EmotionCurves.bezier, List.getD]
      ring

/-- C1 counterexample: for the single whole stereo frame `[1, 0]` (a 4-byte
buffer; peak 1, far below `32767·0.95`), the source's normalization scales by
`32767·0.95 / 1` and produces `[31129, 0]` — it amplifies — while the spec's
capped factor `min(1, 32767·0.95/peak)` would leave `[1, 0]` unchanged. -/
theorem C1_counterexample_normalize_amplifies :
    AudioMixer.normalizeAudio [1, 0] = [31129, 0] ∧
    AudioMixer.normalizeAudioSpec [1, 0] = [1, 0] ∧
    (1 : Int) < 31129 := by
  refine ⟨?_, ?_, by norm_num⟩
  · have hpeak : AudioMixer.peakOf [1, 0] = 1 := by decide
    simp only [AudioMixer.normalizeAudio, hpeak]
    norm_num [AudioMixer.maxNormValue, jsRound, clamp16]
  · have hpeak : AudioMixer.peakOf [1, 0] = 1 := by decide
    simp only [AudioMixer.normalizeAudioSpec, hpeak]
    norm_num [AudioMixer.maxNormValue, jsRound, clamp16]

/-- C1 amended: on a whole-frame buffer with positive peak, normalization
multiplies every sample by exactly `32767·0.95 / peak` — with no cap at 1.0,
so buffers whose peak is below `32767·0.95` are amplified (`[1, 0]` becomes
`[31129, 0]`) — rounds, and re-clamps; afterwards every sample has absolute
value at most `round(32767·0.95) = 31129`. -/
theorem C1_normalization_factor_and_bound (buffer : List Int)
    (_hframes : buffer.length % 2 = 0)
    (hpeak : 0 < AudioMixer.peakOf buffer) :
    AudioMixer.normalizeAudio buffer = buffer.map (fun (sample : Int) =>
      clamp16 (jsRound ((sample : ℚ) *
        (AudioMixer.maxNormValue / (AudioMixer.peakOf buffer : ℚ))))) ∧
    ∀ s ∈ AudioMixer.normalizeAudio buffer, -31129 ≤ s ∧ s ≤ 31129 := by
  have hne : AudioMixer.peakOf buffer ≠ 0 := ne_of_gt hpeak
  have hform : AudioMixer.normalizeAudio buffer = buffer.map (fun (sample : Int) =>
      clamp16 (jsRound ((sample : ℚ) *
        (AudioMixer.maxNormValue / (AudioMixer.peakOf buffer : ℚ))))) := by
    unfold AudioMixer.normalizeAudio
    rw [if_neg hne]
  refine ⟨hform, ?_⟩
  rw [hform]
  intro s hs
  rcases List.mem_map.1 hs with ⟨v, hv, rfl⟩
  have hvpeak := abs_le_peakOf hv
  have hpeakQ : (0 : ℚ) < (AudioMixer.peakOf buffer : ℚ) := by
    exact_mod_cast hpeak
  have hfpos : (0 : ℚ) < AudioMixer.maxNormValue /
      (AudioMixer.peakOf buffer : ℚ) :=
    div_pos (by norm_num [AudioMixer.maxNormValue]) hpeakQ
  have habs : |(v : ℚ) * (AudioMixer.maxNormValue /
      (AudioMixer.peakOf buffer : ℚ))| ≤ AudioMixer.maxNormValue := by
    rw [abs_mul]
    rw [abs_of_pos hfpos]
    have hvQ : |(v : ℚ)| ≤ (AudioMixer.peakOf buffer : ℚ) := by
      rw [← Int.cast_abs]
      exact_mod_cast hvpeak
    calc |(v : ℚ)| * (AudioMixer.maxNormValue / (AudioMixer.peakOf buffer : ℚ))
        ≤ (AudioMixer.peakOf buffer : ℚ) *
          (AudioMixer.maxNormValue / (AudioMixer.peakOf buffer : ℚ)) :=
          mul_le_mul_of_nonneg_right hvQ (le_of_lt hfpos)
      _ = AudioMixer.maxNormValue := by
          field_simp
  rw [abs_le] at habs
  have hup : jsRound ((v : ℚ) * (AudioMixer.maxNormValue /
      (AudioMixer.peakOf buffer : ℚ))) ≤ 31129 := by
    have := jsRound_le_of_le habs.2
    have hfl : ⌊AudioMixer.maxNormValue + 1/2⌋ = 31129 := by
      norm_num [AudioMixer.maxNormValue]
    omega
  have hlo : -31129 ≤ jsRound ((v : ℚ) * (AudioMixer.maxNormValue /
      (AudioMixer.peakOf buffer : ℚ))) := by
    have := le_jsRound_of_le habs.1
    have hfl : ⌊-AudioMixer.maxNormValue + 1/2⌋ = -31129 := by
      norm_num [AudioMixer.maxNormValue]
    omega
  exact clamp16_le_of_le hlo hup (by norm_num)

/-- C1 witness: the amended theorem applied to the concrete one-frame buffer
`[1, 0]`. -/
theorem C1_normalization_witness :
    ([1, 0] : List Int).length % 2 = 0 ∧ 0 < AudioMixer.peakOf [1, 0] ∧
    ∀ s ∈ AudioMixer.normalizeAudio [1, 0], -31129 ≤ s ∧ s ≤ 31129 :=
  ⟨by decide, by decide,
    (C1_normalization_factor_and_bound [1, 0] (by decide) (by decide)).2⟩

/-- C5: every sample written by the mixer stays in `[-32768, 32767]`:
mixing a segment into an in-range buffer, normalization, and compression all
produce buffers whose samples lie in the signed 16-bit range. -/
theorem C5_all_mixer_stages_stay_in_range :
    (∀ (segmentBuffer mixBuffer : List Int) (startSample : Nat) (volume : ℚ),
      (∀ s ∈ mixBuffer, -32768 ≤ s ∧ s ≤ 32767) →
      ∀ s ∈ AudioMixer.mixAudioSegmentIntoBuffer segmentBuffer mixBuffer
          startSample volume, -32768 ≤ s ∧ s ≤ 32767) ∧
    (∀ buffer : List Int,
      ∀ s ∈ AudioMixer.normalizeAudio buffer, -32768 ≤ s ∧ s ≤ 32767) ∧
    (∀ (buffer : List Int) (compressionLevel : ℚ),
      ∀ s ∈ AudioMixer.applyCompression buffer compressionLevel,
        -32768 ≤ s ∧ s ≤ 32767) := by
  refine ⟨?_, ?_, ?_⟩
  · intro segmentBuffer mixBuffer startSample volume hmix s hs
    unfold AudioMixer.mixAudioSegmentIntoBuffer at hs
    rcases mem_mapIdxFrom hs with ⟨k, a, ha, rfl⟩
    split
    · exact clamp16_bounds _
    · exact hmix a ha
  · intro buffer s hs
    unfold AudioMixer.normalizeAudio at hs
    split at hs
    · have hle := abs_le_peakOf hs
      rw [(by assumption : AudioMixer.peakOf buffer = 0)] at hle
      have : s = 0 := by
        rcases abs_le.1 hle with ⟨h1, h2⟩
        omega
      omega
    · rcases List.mem_map.1 hs with ⟨v, _, rfl⟩
      exact clamp16_bounds _
  · intro buffer compressionLevel s hs
    unfold AudioMixer.applyCompression at hs
    rcases List.mem_map.1 hs with ⟨v, _, rfl⟩
    exact clamp16_bounds _

/-- C5 witness: mixing the loud segment `[30000, 30000]` into the in-range
buffer `[20000, 20000, 0, 0]` at full volume keeps every sample in range
(the sums saturate at 32767). -/
theorem C5_mixer_range_witness :
    (∀ s ∈ ([20000, 20000, 0, 0] : List Int), -32768 ≤ s ∧ s ≤ 32767) ∧
    ∀ s ∈ AudioMixer.mixAudioSegmentIntoBuffer [30000, 30000]
        [20000, 20000, 0, 0] 0 1, -32768 ≤ s ∧ s ≤ 32767 :=
  ⟨by decide, C5_all_mixer_stages_stay_in_range.1 [30000, 30000]
    [20000, 20000, 0, 0] 0 1 (by decide)⟩

/-- C2 counterexample: the 100 ms `shortTransition` fails `validateTransition`
(its duration is below the 500 ms minimum), yet `processEmotionTransitions`
still adds its two keyframes to the timeline: with it the timeline has 3
keyframes, without it only the default one. -/
theorem C2_counterexample_invalid_transition_kept :
    EmotionTransitionEngine.validateTransition
      EmotionTransitionEngine.defaultConfig shortTransition = false ∧
    (EmotionTransitionEngine.processEmotionTransitions "hello world"
      [shortTransition] neutralProfile).timeline.keyframes.length = 3 ∧
    (EmotionTransitionEngine.processEmotionTransitions "hello world"
      [] neutralProfile).timeline.keyframes.length = 1 := by
  refine ⟨?_, ?_, ?_⟩
  · norm_num [EmotionTransitionEngine.validateTransition,
      EmotionTransitionEngine.defaultConfig, shortTransition]
  · simp only [EmotionTransitionEngine.processEmotionTransitions,
      EmotionTransitionEngine.createEmotionTimeline, length_sortByTime]
    have : EmotionTransitionEngine.calculateTriggerTime "hello world"
        shortTransition = 0 := by
      simp [EmotionTransitionEngine.calculateTriggerTime, shortTransition]
    simp [EmotionTransitionEngine.transitionKeyframes, this]
  · simp [EmotionTransitionEngine.processEmotionTransitions,
      EmotionTransitionEngine.createEmotionTimeline, length_sortByTime]

/-- Helper: the flattened transition keyframes have twice as many entries as
there are transitions with a resolvable (nonnegative) trigger time. -/
theorem length_flatMap_transitionKeyframes (text : String)
    (transitions : List EmotionTransition) :
    (transitions.flatMap (EmotionTransitionEngine.transitionKeyframes text)).length
      = 2 * (transitions.filter fun tr =>
          0 ≤ EmotionTransitionEngine.calculateTriggerTime text tr).length := by
  induction transitions with
  | nil => rfl
  | cons tr rest ih =>
    rw [List.flatMap_cons, List.length_append, ih, List.filter_cons]
    unfold EmotionTransitionEngine.transitionKeyframes
    by_cases h : 0 ≤ EmotionTransitionEngine.calculateTriggerTime text tr
    · rw [if_pos h]
      simp [h]
      omega
    · rw [if_neg h]
      simp [h]

/-- C2 amended: `validateTransition` does implement exactly the documented
checks (duration within `[500, 3000]` ms and intensity change at least 0.1),
but `processEmotionTransitions` never invokes it: every transition whose
trigger resolves (nonnegative trigger time) contributes its two keyframes to
the timeline regardless of duration or intensity change, and
`transitionCount` counts all supplied transitions. -/
theorem C2_validation_never_applied :
    (∀ tr : EmotionTransition,
      EmotionTransitionEngine.validateTransition
          EmotionTransitionEngine.defaultConfig tr = true ↔
        (500 ≤ tr.duration ∧ tr.duration ≤ 3000 ∧
          1/10 ≤ |tr.toEmotion.intensity - tr.fromEmotion.intensity|)) ∧
    (∀ (text : String) (transitions : List EmotionTransition)
        (defaultEmotion : EmotionProfile),
      (EmotionTransitionEngine.processEmotionTransitions text transitions
          defaultEmotion).timeline.keyframes.length =
        1 + 2 * (transitions.filter fun tr =>
          0 ≤ EmotionTransitionEngine.calculateTriggerTime text tr).length ∧
      (EmotionTransitionEngine.processEmotionTransitions text transitions
          defaultEmotion).transitionCount = transitions.length) := by
  constructor
  · intro tr
    simp only [EmotionTransitionEngine.validateTransition,
      EmotionTransitionEngine.defaultConfig]
    split_ifs with h1 h2 h3
    · simp only [Bool.false_eq_true, false_iff]
      rintro ⟨ha, -, -⟩
      linarith
    · simp only [Bool.false_eq_true, false_iff]
      rintro ⟨-, hmid, -⟩
      linarith
    · simp only [Bool.false_eq_true, false_iff]
      rintro ⟨-, -, hc⟩
      linarith
    · simp only [true_iff]
      exact ⟨le_of_not_lt h1, le_of_not_lt h2, le_of_not_lt h3⟩
  · intro text transitions defaultEmotion
    constructor
    · simp only [EmotionTransitionEngine.processEmotionTransitions,
        EmotionTransitionEngine.createEmotionTimeline, length_sortByTime,
        List.length_cons, length_flatMap_transitionKeyframes]
      omega
    · rfl

/-- C3 counterexample: a config with one character and zero dialogue lines
makes generation fail with the validation error, not succeed with an empty
result. -/
theorem C3_counterexample_empty_plan_rejected :
    ConversationManager.generateConversationCore configNoDialogue =
      Except.error "Conversation must have at least one dialogue line" := rfl

/-- C3 amended: for every config with at least one character and zero
dialogue lines, `generateConversation` throws
`'Conversation must have at least one dialogue line'` during validation
instead of returning an empty render result. -/
theorem C3_empty_dialogue_is_error (config : ConversationConfig)
    (hchars : config.characters ≠ []) (hdialogue : config.dialogue = []) :
    ConversationManager.generateConversationCore config =
      Except.error "Conversation must have at least one dialogue line" := by
  unfold ConversationManager.generateConversationCore
    ConversationManager.validateConversationConfig
  rw [hdialogue]
  rw [if_neg (by simpa [List.length_eq_zero] using hchars)]
  rfl

/-- C3 witness: the amended theorem applied to the concrete empty-dialogue
config. -/
theorem C3_empty_dialogue_witness :
    configNoDialogue.characters ≠ [] ∧ configNoDialogue.dialogue = [] ∧
    ConversationManager.generateConversationCore configNoDialogue =
      Except.error "Conversation must have at least one dialogue line" :=
  ⟨List.cons_ne_nil characterAlice [], rfl,
    C3_empty_dialogue_is_error configNoDialogue
      (List.cons_ne_nil characterAlice []) rfl⟩

/-- Helper: with a nonnegative transition duration, both keyframes a
transition contributes have nonnegative times (the trigger time is
nonnegative by the guard). -/
theorem transitionKeyframes_time_nonneg {text : String} {tr : EmotionTransition}
    (hd : 0 ≤ tr.duration) :
    ∀ kf ∈ EmotionTransitionEngine.transitionKeyframes text tr, 0 ≤ kf.time := by
  intro kf hkf
  unfold EmotionTransitionEngine.transitionKeyframes at hkf
  by_cases h : 0 ≤ EmotionTransitionEngine.calculateTriggerTime text tr
  · rw [if_pos h] at hkf
    rcases List.mem_cons.1 hkf with rfl | hkf2
    · exact h
    · rcases List.mem_cons.1 hkf2 with rfl | hnil
      · exact add_nonneg h hd
      · cases hnil
  · rw [if_neg h] at hkf
    cases hkf

/-- C6: for every text, transition list and default emotion (with the data
model's nonnegative durations), the produced timeline's keyframes are sorted
non-decreasingly by time and the first keyframe is at time 0 with the default
emotion's type and intensity; the stable sort keeps insertion order on
ties. -/
theorem C6_timeline_sorted_first_default (text : String)
    (transitions : List EmotionTransition) (defaultEmotion : EmotionProfile)
    (hdur : ∀ tr ∈ transitions, 0 ≤ tr.duration) :
    List.Pairwise (fun a b => a.time ≤ b.time)
      (EmotionTransitionEngine.createEmotionTimeline text transitions
        defaultEmotion).keyframes ∧
    (EmotionTransitionEngine.createEmotionTimeline text transitions
        defaultEmotion).keyframes.head? =
      some { time := 0, emotion := defaultEmotion.type,
             intensity := defaultEmotion.intensity, transition := none } := by
  constructor
  · simp only [EmotionTransitionEngine.createEmotionTimeline]
    exact pairwise_sortByTime _ _
  · simp only [EmotionTransitionEngine.createEmotionTimeline]
    rw [sortByTime_cons_min]
    · rfl
    · intro y hy
      rcases List.mem_flatMap.1 hy with ⟨tr, htr, hkf⟩
      exact transitionKeyframes_time_nonneg (hdur tr htr) y hkf

/-- C6 witness: the theorem applied to the single-transition scenario text
with a 1500 ms word-triggered transition. -/
theorem C6_timeline_witness :
    (∀ tr ∈ [wordTransition], 0 ≤ tr.duration) ∧
    (List.Pairwise (fun a b => a.time ≤ b.time)
      (EmotionTransitionEngine.createEmotionTimeline
        "I was calm, but then I became really excited!" [wordTransition]
        neutralProfile).keyframes ∧
     (EmotionTransitionEngine.createEmotionTimeline
        "I was calm, but then I became really excited!" [wordTransition]
        neutralProfile).keyframes.head? =
      some { time := 0, emotion := neutralProfile.type,
             intensity := neutralProfile.intensity, transition := none }) := by
  have hdur : ∀ tr ∈ [wordTransition], 0 ≤ tr.duration := by
    intro tr htr
    rw [List.mem_singleton] at htr
    subst htr
    norm_num [wordTransition]
  exact ⟨hdur, C6_timeline_sorted_first_default _ _ _ hdur⟩

/-- C7 counterexample: with no pauses, the first line of two adjacent
three-word lines ends exactly when the second starts (t = 1000 ms); the
time-only stable sort leaves the first line's `line_end` (pushed earlier)
before the second line's `line_start` at that time, so `line_start` events do
not take priority over `line_end` events at equal times. -/
theorem C7_counterexample_line_end_before_line_start :
    (ConversationManager.createConversationTimeline
        (ConversationManager.processDialogueTiming dialogueAdjacent
          settings0)).events =
      [{ time := 0, type := .line_start, characterId := "a", lineId := "l1" },
       { time := 1000, type := .line_end, characterId := "a", lineId := "l1" },
       { time := 1000, type := .line_start, characterId := "a", lineId := "l2" },
       { time := 2000, type := .line_end, characterId := "a", lineId := "l2" }] ∧
    (ConversationManager.createConversationTimeline
        (ConversationManager.processDialogueTiming dialogueAdjacent
          settings0)).events[1]? =
      some { time := 1000, type := .line_end, characterId := "a",
             lineId := "l1" } ∧
    (ConversationManager.createConversationTimeline
        (ConversationManager.processDialogueTiming dialogueAdjacent
          settings0)).events[2]? =
      some { time := 1000, type := .line_start, characterId := "a",
             lineId := "l2" } := by
  have h3 : (jsSplitWs "a b c").length = 3 := by decide
  have heq : (ConversationManager.createConversationTimeline
      (ConversationManager.processDialogueTiming dialogueAdjacent
        settings0)).events =
      [{ time := 0, type := .line_start, characterId := "a", lineId := "l1" },
       { time := 1000, type := .line_end, characterId := "a", lineId := "l1" },
       { time := 1000, type := .line_start, characterId := "a", lineId := "l2" },
       { time := 2000, type := .line_end, characterId := "a",
         lineId := "l2" }] := by
    norm_num [dialogueAdjacent, plainLine, settings0,
      ConversationManager.processDialogueTiming,
      ConversationManager.processDialogueTimingGo,
      ConversationManager.scheduleLine, ConversationManager.applyOverlapStart,
      ConversationManager.createConversationTimeline,
      ConversationManager.lineEvents, h3, sortByTime, insertByTime]
  exact ⟨heq, by rw [heq]; rfl, by rw [heq]; rfl⟩

/-- C7 amended: the event log is sorted by `time_ms` only — event kind plays
no part; ties keep insertion order (per line: `line_start`, `line_end`,
`emotion_change`, `overlap_start`, `overlap_end`, lines in dialogue
order). -/
theorem C7_events_sorted_by_time (dialogue : List DialogueLine) :
    List.Pairwise (fun a b => a.time ≤ b.time)
      (ConversationManager.createConversationTimeline dialogue).events := by
  simp only [ConversationManager.createConversationTimeline]
  exact pairwise_sortByTime _ _

/-- Helper: the scheduler loop, on lines with no explicit `pauseBefore`,
`speedModifier` or overlap, computes exactly the spec's schedule (for any
array prefix, index and cursor). -/
theorem processDialogueTimingGo_spec (gs : ConversationGlobalSettings)
    (rest : List DialogueLine)
    (h : ∀ l ∈ rest, l.timing.pauseBefore = none ∧
      l.timing.speedModifier = none ∧ l.timing.overlap = none) :
    ∀ (done : List DialogueLine) (i : Nat) (cursor : ℚ),
    (ConversationManager.processDialogueTimingGo gs done i cursor rest).map
        (fun l => (l.timing.startTime, l.timing.endTime)) =
      SpecSchedule.specScheduleGo gs.pauseBetweenLines cursor i
        (rest.map fun l => ((jsSplitWs l.text).length,
          l.timing.pauseAfter.getD 0)) := by
  induction rest with
  | nil => intro done i cursor; rfl
  | cons line rest ih =>
    intro done i cursor
    obtain ⟨hpb, hsm, hov⟩ := h line (List.mem_cons_self line rest)
    have hrest : ∀ l ∈ rest, l.timing.pauseBefore = none ∧
        l.timing.speedModifier = none ∧ l.timing.overlap = none :=
      fun l hl => h l (List.mem_cons_of_mem line hl)
    simp only [ConversationManager.processDialogueTimingGo,
      ConversationManager.scheduleLine, ConversationManager.applyOverlapStart,
      hpb, hsm, hov, List.map_cons, SpecSchedule.specScheduleGo,
      Option.getD_some, ih hrest]

/-- C4: for dialogues whose lines carry no explicit `pause_before`, no speed
multiplier and no overlap, the scheduler assigns
`start = cursor + pause_before` (0 for the first line,
`pause_between_lines` otherwise), `end = start + (word_count/3)·1000`, and
advances the cursor to `end + pause_after` — i.e. it computes exactly the
spec's schedule over the `(word_count, pause_after)` sequence. -/
theorem C4_default_schedule (dialogue : List DialogueLine)
    (gs : ConversationGlobalSettings)
    (h : ∀ l ∈ dialogue, l.timing.pauseBefore = none ∧
      l.timing.speedModifier = none ∧ l.timing.overlap = none) :
    (ConversationManager.processDialogueTiming dialogue gs).map
        (fun l => (l.timing.startTime, l.timing.endTime)) =
      SpecSchedule.specSchedule (dialogue.map fun l =>
        ((jsSplitWs l.text).length, l.timing.pauseAfter.getD 0))
        gs.pauseBetweenLines :=
  processDialogueTimingGo_spec gs dialogue h [] 0 0

/-- C4 witness: three lines of 12, 8 and 5 words with a 500 ms pause between
lines — line 1 spans [0, 4000], line 2 starts at 4500 and ends at
21500/3 ≈ 7166.7 (2666.7 ms later), line 3 starts 500 ms after that at
23000/3 ≈ 7666.7. -/
theorem C4_schedule_witness :
    (∀ l ∈ dialogue1285, l.timing.pauseBefore = none ∧
      l.timing.speedModifier = none ∧ l.timing.overlap = none) ∧
    (ConversationManager.processDialogueTiming dialogue1285 settings500).map
        (fun l => (l.timing.startTime, l.timing.endTime)) =
      [(0, some 4000), (4500, some (21500/3)),
       (23000/3, some (28000/3))] := by
  have hdef : ∀ l ∈ dialogue1285, l.timing.pauseBefore = none ∧
      l.timing.speedModifier = none ∧ l.timing.overlap = none := by decide
  refine ⟨hdef, ?_⟩
  rw [C4_default_schedule dialogue1285 settings500 hdef]
  have hwc : dialogue1285.map (fun l => ((jsSplitWs l.text).length,
      l.timing.pauseAfter.getD 0)) = [(12, (0 : ℚ)), (8, 0), (5, 0)] := by
    decide
  rw [hwc]
  norm_num [SpecSchedule.specSchedule, SpecSchedule.specScheduleGo, settings500]

/-- C9: parsing the single SRT block
`"1\n00:00:01,000 --> 00:00:03,000\nALICE: Hello [happy]!\n"` yields exactly
one entry with index 1, start 1.0 s, end 3.0 s, speaker `ALICE`, emotion
`happy`, and text `"Hello !"` (the bracketed annotation removed). -/
theorem C9_srt_block_parses :
    SubtitleReader.parseSRT srtInput =
      { id := "subtitle_track", language := "en", format := "srt",
        entries := [{ index := 1, startTime := 1, endTime := 3,
                      startTimecode := "00:00:01:00",
                      endTimecode := "00:00:03:00",
                      text := "Hello !", speaker := some "ALICE",
                      emotion := some { primary := "happy", intensity := 7/10,
                                        confidence := 8/10 } }],
        metadata := { language := "en", encoding := "utf-8", frameRate := 25,
                      totalEntries := 1 } } := by
  have hstep : SubtitleReader.parseSRT srtInput =
      { id := "subtitle_track", language := "en", format := "srt",
        entries := [{ index := 1,
                      startTime := SubtitleReader.parseTimeToSeconds 0 0 1 0,
                      endTime := SubtitleReader.parseTimeToSeconds 0 0 3 0,
                      startTimecode := SubtitleReader.secondsToTimecode
                        (SubtitleReader.parseTimeToSeconds 0 0 1 0),
                      endTimecode := SubtitleReader.secondsToTimecode
                        (SubtitleReader.parseTimeToSeconds 0 0 3 0),
                      text := "Hello !", speaker := some "ALICE",
                      emotion := some { primary := "happy", intensity := 7/10,
                                        confidence := 8/10 } }],
        metadata := { language := "en", encoding := "utf-8", frameRate := 25,
                      totalEntries := 1 } } := rfl
  rw [hstep]
  have h1 : SubtitleReader.parseTimeToSeconds 0 0 1 0 = 1 := by
    norm_num [SubtitleReader.parseTimeToSeconds]
  have h3 : SubtitleReader.parseTimeToSeconds 0 0 3 0 = 3 := by
    norm_num [SubtitleReader.parseTimeToSeconds]
  rw [h1, h3]
  have ht1 : SubtitleReader.secondsToTimecode 1 = "00:00:01:00" := by
    norm_num [SubtitleReader.secondsToTimecode, jsMod, jsTrunc,
      SubtitleReader.padStart2]
    decide
  have ht3 : SubtitleReader.secondsToTimecode 3 = "00:00:03:00" := by
    norm_num [SubtitleReader.secondsToTimecode, jsMod, jsTrunc,
      SubtitleReader.padStart2]
    decide
  rw [ht1, ht3]
